import Mathlib

/-!
# The relay layer of the user-demo server

A shallow embedding of `src/user-demo/src/main.go`: the settings (`config`), the
credential cache (`cachedToken`), the three relay calls (`makeAPIRequest`,
`makeJWTRequest`, `makePublicRequest`) and the handlers that change the settings or the
cache.

The two package-level variables become the fields of `State`, passed explicitly. What the
program takes from outside itself (the JSON codec, `http.NewRequest`, `client.Do`,
`io.ReadAll`, `os.WriteFile`) is a field of `Env`. Every relay call reports, next to its
Go result, the list of requests it handed to `client.Do`.
-/

set_option autoImplicit false

namespace UserDemo

/-! ## Data model -/

/-- Config holds the application configuration (`type Config`). `UserID` is a Go `uint`;
no arithmetic is done on it, so it is a natural number here. -/
structure Config where
  ServerURL : String
  UserAPIKey : String
  UserID : Nat
  Port : Int
  deriving DecidableEq, Repr

/-- The constant `configFileName`. -/
def configFileName : String := "config.json"

/-- The constant `defaultPort`. -/
def defaultPort : Int := 8183

/-- The variable `defaultConfig`. -/
def defaultConfig : Config :=
  { ServerURL := "", UserAPIKey := "", UserID := 0, Port := defaultPort }

/-- APIResponse represents a generic API response (`type APIResponse`). `Data` is a
`json.RawMessage`: `none` is the nil slice, `some b` the raw bytes of the field. -/
structure APIResponse where
  Success : Bool
  Message : String
  Data : Option String
  deriving DecidableEq, Repr

/-- TokenResponse represents the token exchange response (`type TokenResponse`). -/
structure TokenResponse where
  AccessToken : String
  TokenType : String
  ExpiresIn : Int
  UserID : Nat
  Username : String
  Email : String
  DisplayName : String
  deriving DecidableEq, Repr

/-- The anonymous struct of the field `User` in `loginResp` and `registerResp`. -/
structure LoginUser where
  ID : Nat
  Username : String
  Email : String
  DisplayName : String
  deriving DecidableEq, Repr

/-- The anonymous struct `loginResp` of `handleLogin`, which `handleRegister` declares
again as `registerResp`. -/
structure LoginResp where
  Token : String
  User : LoginUser
  deriving DecidableEq, Repr

/-- A non-nil value passed as `body interface{}`. The relay calls only hand it to
`json.Marshal`, so the embedding keeps it as an uninterpreted token. -/
abbrev Body := String

/-- An `http.Header`: the entries in the order they were first set. The letter case of a
key is kept as the source writes it. -/
abbrev Header := List (String × String)

/-- The method `Header.Set`: the entry for `key` is replaced by the single `value`. -/
def Header.set (h : Header) (key value : String) : Header :=
  h.filter (fun p => !(p.1 == key)) ++ [(key, value)]

/-- The value stored for `key`, if any. -/
def Header.get (h : Header) (key : String) : Option String :=
  (h.find? (fun p => p.1 == key)).map Prod.snd

/-- An outbound `*http.Request` as the relay calls use it: method, URL, the bytes of the
body reader (`none` for a nil reader) and the header. -/
structure Request where
  method : String
  url : String
  body : Option String
  header : Header
  deriving DecidableEq, Repr

/-- The request `http.NewRequest(method, url, body)` returns when it returns one: an empty
header, and `GET` for an empty method. -/
def Request.new (method url : String) (body : Option String) : Request :=
  { method := if method = "" then "GET" else method, url := url, body := body, header := [] }

/-- The call `req.Header.Set(key, value)`. -/
def Request.setHeader (req : Request) (key value : String) : Request :=
  { req with header := req.header.set key value }

/-- An `*http.Response` as the relay calls use it: what `io.ReadAll(resp.Body)` yields. -/
structure Response where
  body : Except String String

/-- The world outside the program. An `Except String` carries the text of a Go `error`. -/
structure Env where
  /-- Models `json.Marshal(body)` for a non-nil body. -/
  jsonMarshal : Body → Except String String
  /-- Models the error of `http.NewRequest(method, url, _)`, `none` when it is nil. -/
  httpNewRequest : String → String → Option String
  /-- Models `client.Do(req)`. -/
  clientDo : Request → Except String Response
  /-- Models `json.Unmarshal(b, &apiResp)` on a zero `APIResponse`. -/
  unmarshalAPIResponse : String → Except String APIResponse
  /-- Models `json.Unmarshal(b, &token)` on a zero `TokenResponse`. -/
  unmarshalTokenResponse : String → Except String TokenResponse
  /-- Models `json.Unmarshal(b, &loginResp)` on a zero `loginResp`. -/
  unmarshalLoginResp : String → Except String LoginResp
  /-- Models `json.NewDecoder(r.Body).Decode(&data)` into a `map[string]interface{}`. -/
  decodeRequestBody : String → Except String Body
  /-- Models `json.MarshalIndent(config, "", "  ")`. -/
  marshalIndentConfig : Config → Except String String
  /-- Models the error of `os.WriteFile(name, data, 0600)`, `none` when it is nil. -/
  writeFile : String → String → Option String

/-- The mutable state of the process: the variables `config` and `cachedToken`, and the
content of the settings file (`none` while it does not exist). -/
structure State where
  config : Config
  cachedToken : String
  configFile : Option String
  deriving DecidableEq, Repr

/-- An inbound `*http.Request` as the handlers use it. -/
structure Inbound where
  Method : String
  FormValue : String → String
  Body : String

/-- A value stored in a `map[string]interface{}` that a handler encodes. -/
inductive JVal where
  | bool (b : Bool)
  | str (s : String)
  | raw (d : Option String)
  | token (t : TokenResponse)
  deriving DecidableEq, Repr

/-- What a handler writes to its `http.ResponseWriter`. -/
inductive Reply where
  | json (fields : List (String × JVal))
  | redirect (location : String) (status : Nat)
  | error (message : String) (status : Nat)
  deriving DecidableEq, Repr

/-- What a relay call does: the pair it returns (`(nil, err)` is `.error`, `(&apiResp, nil)`
is `.ok`) and the requests it handed to `client.Do`. -/
structure RelayOutcome where
  result : Except String APIResponse
  calls : List Request

/-- What a handler does: the state it leaves, what it writes and the requests it handed to
`client.Do`. -/
structure Handled where
  state : State
  reply : Reply
  calls : List Request

/-! ## Library functions the source calls -/

/-- The call `strings.TrimSuffix(s, suffix)`: `s` without the trailing `suffix`, once. -/
def trimSuffix (s suffix : String) : String :=
  if suffix.data.isSuffixOf s.data then
    String.mk (s.data.take (s.data.length - suffix.data.length))
  else s

/-- The call `strconv.ParseUint(s, 10, bitSize)`: a non-empty string of decimal digits
whose value fits `bitSize` bits; `none` when it returns an error. -/
def parseUintBase10 (s : String) (bitSize : Nat) : Option Nat :=
  if s = "" then none
  else if s.data.all Char.isDigit then
    let n := s.data.foldl (fun acc c => acc * 10 + (c.toNat - 48)) 0
    if n < 2 ^ bitSize then some n else none
  else none

/-- The call `strconv.FormatUint(uint64(n), 10)`. -/
def formatUint (n : Nat) : String := Nat.repr n

/-! ## The relay calls -/

/-- The request `makeAPIRequest` builds and hands to `client.Do`. -/
def apiRequest (s : State) (method endpoint : String) : Request :=
  (((Request.new method (s.config.ServerURL ++ endpoint) none).setHeader
    "X-User-API-Key" s.config.UserAPIKey).setHeader
    "X-User-ID" (formatUint s.config.UserID)).setHeader
    "Accept" "application/json"

/-- The function `makeAPIRequest`: an authenticated API request using the API key. -/
def makeAPIRequest (env : Env) (s : State) (method endpoint : String) : RelayOutcome :=
  if s.config.ServerURL = "" then ⟨.error "服务器地址未配置", []⟩
  else if s.config.UserAPIKey = "" then ⟨.error "API密钥未配置", []⟩
  else if s.config.UserID = 0 then ⟨.error "用户ID未配置", []⟩
  else
    match env.httpNewRequest method (s.config.ServerURL ++ endpoint) with
    | some err => ⟨.error ("创建请求失败: " ++ err), []⟩
    | none =>
      let req := apiRequest s method endpoint
      match env.clientDo req with
      | .error err => ⟨.error ("请求失败: " ++ err), [req]⟩
      | .ok resp =>
        match resp.body with
        | .error err => ⟨.error ("读取响应失败: " ++ err), [req]⟩
        | .ok body =>
          match env.unmarshalAPIResponse body with
          | .error err => ⟨.error ("解析响应失败: " ++ err ++ ", body: " ++ body), [req]⟩
          | .ok apiResp =>
            if !apiResp.Success then ⟨.error ("API错误: " ++ apiResp.Message), [req]⟩
            else ⟨.ok apiResp, [req]⟩

/-- The block of `makeJWTRequest` and `makePublicRequest` that serialises the body: a nil
body gives a nil reader, a non-nil one the reader over `json.Marshal(body)`. -/
def marshalBody (env : Env) (body : Option Body) : Except String (Option String) :=
  match body with
  | none => .ok none
  | some b =>
    match env.jsonMarshal b with
    | .error err => .error ("序列化请求体失败: " ++ err)
    | .ok jsonBody => .ok (some jsonBody)

/-- The request `makeJWTRequest` builds and hands to `client.Do`; `reqBody` is the result
of `marshalBody`, which is a reader exactly when `body != nil`. -/
def jwtRequest (s : State) (method endpoint : String) (reqBody : Option String) : Request :=
  let req := ((Request.new method (s.config.ServerURL ++ endpoint) reqBody).setHeader
    "Authorization" ("Bearer " ++ s.cachedToken)).setHeader "Accept" "application/json"
  if reqBody.isSome then req.setHeader "Content-Type" "application/json" else req

/-- The function `makeJWTRequest`: an authenticated API request using the JWT token. -/
def makeJWTRequest (env : Env) (s : State) (method endpoint : String) (body : Option Body) :
    RelayOutcome :=
  if s.config.ServerURL = "" then ⟨.error "服务器地址未配置", []⟩
  else if s.cachedToken = "" then ⟨.error "JWT Token未获取", []⟩
  else
    match marshalBody env body with
    | .error err => ⟨.error err, []⟩
    | .ok reqBody =>
      match env.httpNewRequest method (s.config.ServerURL ++ endpoint) with
      | some err => ⟨.error ("创建请求失败: " ++ err), []⟩
      | none =>
        let req := jwtRequest s method endpoint reqBody
        match env.clientDo req with
        | .error err => ⟨.error ("请求失败: " ++ err), [req]⟩
        | .ok resp =>
          match resp.body with
          | .error err => ⟨.error ("读取响应失败: " ++ err), [req]⟩
          | .ok respBody =>
            match env.unmarshalAPIResponse respBody with
            | .error err =>
              ⟨.error ("解析响应失败: " ++ err ++ ", body: " ++ respBody), [req]⟩
            | .ok apiResp =>
              if !apiResp.Success then ⟨.error ("API错误: " ++ apiResp.Message), [req]⟩
              else ⟨.ok apiResp, [req]⟩

/-- The request `makePublicRequest` builds and hands to `client.Do`. -/
def publicRequest (s : State) (method endpoint : String) (reqBody : Option String) : Request :=
  let req := (Request.new method (s.config.ServerURL ++ endpoint) reqBody).setHeader
    "Accept" "application/json"
  if reqBody.isSome then req.setHeader "Content-Type" "application/json" else req

/-- The function `makePublicRequest`: a public API request (no auth required). -/
def makePublicRequest (env : Env) (s : State) (method endpoint : String)
    (body : Option Body) : RelayOutcome :=
  if s.config.ServerURL = "" then ⟨.error "服务器地址未配置", []⟩
  else
    match marshalBody env body with
    | .error err => ⟨.error err, []⟩
    | .ok reqBody =>
      match env.httpNewRequest method (s.config.ServerURL ++ endpoint) with
      | some err => ⟨.error ("创建请求失败: " ++ err), []⟩
      | none =>
        let req := publicRequest s method endpoint reqBody
        match env.clientDo req with
        | .error err => ⟨.error ("请求失败: " ++ err), [req]⟩
        | .ok resp =>
          match resp.body with
          | .error err => ⟨.error ("读取响应失败: " ++ err), [req]⟩
          | .ok respBody =>
            match env.unmarshalAPIResponse respBody with
            | .error err =>
              ⟨.error ("解析响应失败: " ++ err ++ ", body: " ++ respBody), [req]⟩
            | .ok apiResp => ⟨.ok apiResp, [req]⟩

/-! ## Session bootstrap and settings handlers -/

/-- The function `exchangeForToken`: exchanges the API key for a JWT access token. The
second component lists the requests handed to `client.Do`. A nil `resp.Data` reaches
`json.Unmarshal` as the empty byte string. -/
def exchangeForToken (env : Env) (s : State) : Except String TokenResponse × List Request :=
  let out := makeAPIRequest env s "POST" "/api/user-api/token"
  match out.result with
  | .error err => (.error err, out.calls)
  | .ok resp =>
    match env.unmarshalTokenResponse (resp.Data.getD "") with
    | .error err => (.error ("解析令牌失败: " ++ err), out.calls)
    | .ok token => (.ok token, out.calls)

/-- The function `handleAPIToken`: exchanges the API key for an access token and caches
it. -/
def handleAPIToken (env : Env) (s : State) : Handled :=
  match exchangeForToken env s with
  | (.error err, calls) =>
    ⟨s, .json [("success", .bool false), ("error", .str err)], calls⟩
  | (.ok token, calls) =>
    ⟨{ s with cachedToken := token.AccessToken },
      .json [("success", .bool true), ("data", .token token)], calls⟩

/-- The function `handleLogin`: username/password login with captcha; on success the token
is cached and the user id stored in the settings. -/
def handleLogin (env : Env) (s : State) (r : Inbound) : Handled :=
  if r.Method ≠ "POST" then
    ⟨s, .json [("success", .bool false), ("error", .str "Method not allowed")], []⟩
  else
    match env.decodeRequestBody r.Body with
    | .error _ =>
      ⟨s, .json [("success", .bool false), ("error", .str "Invalid request body")], []⟩
    | .ok loginData =>
      let out := makePublicRequest env s "POST" "/api/auth/login" (some loginData)
      match out.result with
      | .error err =>
        ⟨s, .json [("success", .bool false), ("error", .str err)], out.calls⟩
      | .ok resp =>
        let s1 :=
          match resp.Success, resp.Data with
          | true, some data =>
            match env.unmarshalLoginResp data with
            | .ok loginResp =>
              if loginResp.Token ≠ "" then
                { s with cachedToken := loginResp.Token,
                         config := { s.config with UserID := loginResp.User.ID } }
              else s
            | .error _ => s
          | _, _ => s
        ⟨s1, .json [("success", .bool resp.Success), ("message", .str resp.Message),
          ("data", .raw resp.Data)], out.calls⟩

/-- The function `handleRegister`: user registration with captcha; on success the token is
cached and the user id stored in the settings. -/
def handleRegister (env : Env) (s : State) (r : Inbound) : Handled :=
  if r.Method ≠ "POST" then
    ⟨s, .json [("success", .bool false), ("error", .str "Method not allowed")], []⟩
  else
    match env.decodeRequestBody r.Body with
    | .error _ =>
      ⟨s, .json [("success", .bool false), ("error", .str "Invalid request body")], []⟩
    | .ok registerData =>
      let out := makePublicRequest env s "POST" "/api/auth/register" (some registerData)
      match out.result with
      | .error err =>
        ⟨s, .json [("success", .bool false), ("error", .str err)], out.calls⟩
      | .ok resp =>
        let s1 :=
          match resp.Success, resp.Data with
          | true, some data =>
            match env.unmarshalLoginResp data with
            | .ok registerResp =>
              if registerResp.Token ≠ "" then
                { s with cachedToken := registerResp.Token,
                         config := { s.config with UserID := registerResp.User.ID } }
              else s
            | .error _ => s
          | _, _ => s
        ⟨s1, .json [("success", .bool resp.Success), ("message", .str resp.Message),
          ("data", .raw resp.Data)], out.calls⟩

/-- The function `saveConfig`: writes the current configuration to the settings file. The
second component is the error it returns, `none` for nil. When `os.WriteFile` fails the
file of the model keeps its content. -/
def saveConfig (env : Env) (s : State) : State × Option String :=
  match env.marshalIndentConfig s.config with
  | .error err => (s, some err)
  | .ok data =>
    match env.writeFile configFileName data with
    | some err => (s, some err)
    | none => ({ s with configFile := some data }, none)

/-- The function `handleConfig`: handles configuration updates. -/
def handleConfig (env : Env) (s : State) (r : Inbound) : Handled :=
  if r.Method = "POST" then
    let c1 := { s.config with ServerURL := trimSuffix (r.FormValue "server_url") "/" }
    let c2 := { c1 with UserAPIKey := r.FormValue "user_api_key" }
    let c3 :=
      match parseUintBase10 (r.FormValue "user_id") 32 with
      | some uid => { c2 with UserID := uid }
      | none => c2
    let s1 := { s with config := c3, cachedToken := "" }
    match saveConfig env s1 with
    | (s2, some _) => ⟨s2, .error "保存配置失败" 500, []⟩
    | (s2, none) => ⟨s2, .redirect "/?success=config_saved" 303, []⟩
  else ⟨s, .redirect "/" 303, []⟩

/-! ## Startup -/

/-- The value of a string of decimal digits, most significant digit first. -/
def decimalValue (digits : List Char) : Nat :=
  digits.foldl (fun acc c => acc * 10 + (c.toNat - 48)) 0

/-- The call `strconv.Atoi(s)`: an optional sign and a non-empty string of decimal digits
whose value fits a 64-bit `int`; `none` when it returns an error. -/
def atoi (s : String) : Option Int :=
  let signed : Bool × List Char :=
    match s.data with
    | '-' :: rest => (true, rest)
    | '+' :: rest => (false, rest)
    | cs => (false, cs)
  if signed.2 = [] then none
  else if signed.2.all Char.isDigit then
    let v : Int := if signed.1 then -(decimalValue signed.2 : Int) else decimalValue signed.2
    if -(2 ^ 63) ≤ v ∧ v < 2 ^ 63 then some v else none
  else none

/-- What `loadConfig` takes from outside the program. -/
structure Boot where
  /-- Models `os.ReadFile(configFileName)`, `none` when it returns an error. -/
  readFile : Option String
  /-- Models `json.Unmarshal(data, &cfg)`: the value left in `cfg`, which is written even
  when an error is returned, and the error, `none` for nil. -/
  unmarshalConfig : String → Config → Config × Option String
  /-- Models `os.Getenv(name)`. -/
  getenv : String → String

/-- The function `loadConfig`: loads the configuration from the JSON file and the
environment variables. The log lines, and the default file that `generateDefaultConfig`
writes when the file does not exist, leave the returned value untouched and are left
out. -/
def loadConfig (boot : Boot) : Config :=
  let cfg0 := defaultConfig
  let cfg1 :=
    match boot.readFile with
    | some data => (boot.unmarshalConfig data cfg0).1
    | none => cfg0
  let cfg2 :=
    if boot.getenv "SERVER_URL" ≠ "" then { cfg1 with ServerURL := boot.getenv "SERVER_URL" }
    else cfg1
  let cfg3 :=
    if boot.getenv "USER_API_KEY" ≠ "" then
      { cfg2 with UserAPIKey := boot.getenv "USER_API_KEY" }
    else cfg2
  let cfg4 :=
    if boot.getenv "USER_ID" ≠ "" then
      match parseUintBase10 (boot.getenv "USER_ID") 32 with
      | some uid => { cfg3 with UserID := uid }
      | none => cfg3
    else cfg3
  let cfg5 :=
    if boot.getenv "PORT" ≠ "" then
      match atoi (boot.getenv "PORT") with
      | some p => { cfg4 with Port := p }
      | none => cfg4
    else cfg4
  let cfg6 := { cfg5 with ServerURL := trimSuffix cfg5.ServerURL "/" }
  if cfg6.Port = 0 then { cfg6 with Port := defaultPort } else cfg6

/-! ## Handlers served through the public relay -/

/-- The function `handleCaptchaStatus`: gets the captcha status from the server. -/
def handleCaptchaStatus (env : Env) (s : State) : Handled :=
  let out := makePublicRequest env s "GET" "/api/captcha/status" none
  match out.result with
  | .error err =>
    ⟨s, .json [("success", .bool false), ("error", .str err)], out.calls⟩
  | .ok resp =>
    ⟨s, .json [("success", .bool true), ("data", .raw resp.Data)], out.calls⟩

/-- The function `handleCaptchaGenerate`: generates a new captcha. -/
def handleCaptchaGenerate (env : Env) (s : State) : Handled :=
  let out := makePublicRequest env s "POST" "/api/captcha/generate" none
  match out.result with
  | .error err =>
    ⟨s, .json [("success", .bool false), ("error", .str err)], out.calls⟩
  | .ok resp =>
    ⟨s, .json [("success", .bool true), ("data", .raw resp.Data)], out.calls⟩

/-- The function `handleCaptchaVerify`: verifies a captcha. -/
def handleCaptchaVerify (env : Env) (s : State) (r : Inbound) : Handled :=
  if r.Method ≠ "POST" then
    ⟨s, .json [("success", .bool false), ("error", .str "Method not allowed")], []⟩
  else
    match env.decodeRequestBody r.Body with
    | .error _ =>
      ⟨s, .json [("success", .bool false), ("error", .str "Invalid request body")], []⟩
    | .ok verifyData =>
      let out := makePublicRequest env s "POST" "/api/captcha/verify" (some verifyData)
      match out.result with
      | .error err =>
        ⟨s, .json [("success", .bool false), ("error", .str err)], out.calls⟩
      | .ok resp =>
        ⟨s, .json [("success", .bool resp.Success), ("message", .str resp.Message),
          ("data", .raw resp.Data)], out.calls⟩

/-- The function `handleVIPLevels`: gets the available VIP levels from the public API. -/
def handleVIPLevels (env : Env) (s : State) : Handled :=
  let out := makePublicRequest env s "GET" "/api/vip-levels" none
  match out.result with
  | .error err =>
    ⟨s, .json [("success", .bool false), ("error", .str err)], out.calls⟩
  | .ok resp =>
    ⟨s, .json [("success", .bool true), ("data", .raw resp.Data)], out.calls⟩

/-- The function `handleRechargeSettings`: gets the recharge settings from the public API. -/
def handleRechargeSettings (env : Env) (s : State) : Handled :=
  let out := makePublicRequest env s "GET" "/api/recharge-settings" none
  match out.result with
  | .error err =>
    ⟨s, .json [("success", .bool false), ("error", .str err)], out.calls⟩
  | .ok resp =>
    ⟨s, .json [("success", .bool true), ("data", .raw resp.Data)], out.calls⟩

/-! ## The steps of the credential lifecycle -/

/-- One step of the process: a settings update, a token exchange, a login, a registration,
or one of the three relay calls. -/
inductive Action where
  | settingsUpdate (r : Inbound)
  | tokenExchange
  | login (r : Inbound)
  | register (r : Inbound)
  | apiCall (method endpoint : String)
  | jwtCall (method endpoint : String) (body : Option Body)
  | publicCall (method endpoint : String) (body : Option Body)

/-- The state a step leaves. The relay calls assign neither `config` nor `cachedToken`, so
they leave the state as it is. -/
def step (env : Env) (s : State) : Action → State
  | .settingsUpdate r => (handleConfig env s r).state
  | .tokenExchange => (handleAPIToken env s).state
  | .login r => (handleLogin env s r).state
  | .register r => (handleRegister env s r).state
  | .apiCall _ _ => s
  | .jwtCall _ _ _ => s
  | .publicCall _ _ _ => s

/-- The string `v` is a decimal numeral of the unsigned integer `n`: a non-empty string of
decimal digits whose value is `n`. -/
def IsDecimal (v : String) (n : Nat) : Prop :=
  v ≠ "" ∧ v.data.all Char.isDigit = true ∧ decimalValue v.data = n

/-- The string `url` ends with a slash. -/
def EndsWithSlash (url : String) : Prop := url.data.getLast? = some '/'

/-- The string `url` ends with two slashes. -/
def EndsWithTwoSlashes (url : String) : Prop := "//".data.isSuffixOf url.data = true

/-! ## Exchanges with the backend -/

/-- The staticKey-mode call `(method, endpoint)` in state `s` reaches the backend and reads
the response body `raw`: the three settings are present, `http.NewRequest` accepts the
request, `client.Do` returns and `io.ReadAll` yields `raw`. -/
def APIExchange (env : Env) (s : State) (method endpoint raw : String) : Prop :=
  s.config.ServerURL ≠ "" ∧ s.config.UserAPIKey ≠ "" ∧ s.config.UserID ≠ 0 ∧
  env.httpNewRequest method (s.config.ServerURL ++ endpoint) = none ∧
  ∃ resp, env.clientDo (apiRequest s method endpoint) = .ok resp ∧ resp.body = .ok raw

/-- The bearerToken-mode call `(method, endpoint, body)` in state `s` reaches the backend
and reads the response body `raw`: the server URL and the cached token are present, the
body serialises, `http.NewRequest` accepts the request, `client.Do` returns and
`io.ReadAll` yields `raw`. -/
def JWTExchange (env : Env) (s : State) (method endpoint : String) (body : Option Body)
    (raw : String) : Prop :=
  s.config.ServerURL ≠ "" ∧ s.cachedToken ≠ "" ∧
  env.httpNewRequest method (s.config.ServerURL ++ endpoint) = none ∧
  ∃ reqBody resp, marshalBody env body = .ok reqBody ∧
    env.clientDo (jwtRequest s method endpoint reqBody) = .ok resp ∧ resp.body = .ok raw

/-- The public call `(method, endpoint, body)` in state `s` reaches the backend and reads
the response body `raw`: the server URL is present, the body serialises, `http.NewRequest`
accepts the request, `client.Do` returns and `io.ReadAll` yields `raw`. -/
def PublicExchange (env : Env) (s : State) (method endpoint : String) (body : Option Body)
    (raw : String) : Prop :=
  s.config.ServerURL ≠ "" ∧
  env.httpNewRequest method (s.config.ServerURL ++ endpoint) = none ∧
  ∃ reqBody resp, marshalBody env body = .ok reqBody ∧
    env.clientDo (publicRequest s method endpoint reqBody) = .ok resp ∧ resp.body = .ok raw

/-! ## A fake backend for the worked examples -/

namespace Sample

/-- A response body that is not JSON. -/
def garbage : String := "<html>502</html>"

/-- The body `{"success":false,"message":"X"}`. -/
def failBody : String := "\x7b\"success\":false,\"message\":\"X\"\x7d"

/-- The payload `{"access_token":"abc123"}`. -/
def tokenData : String := "\x7b\"access_token\":\"abc123\"\x7d"

/-- The body `{"success":true,"data":{"access_token":"abc123"}}`. -/
def tokenBody : String := "\x7b\"success\":true,\"data\":" ++ tokenData ++ "\x7d"

/-- The payload `{"token":"tok1","user":{"id":42}}`. -/
def loginData : String := "\x7b\"token\":\"tok1\",\"user\":\x7b\"id\":42\x7d\x7d"

/-- The body `{"success":true,"data":{"token":"tok1","user":{"id":42}}}`. -/
def loginBody : String := "\x7b\"success\":true,\"data\":" ++ loginData ++ "\x7d"

/-- A fake backend that answers every request with the body `raw`. Its decoders know the
sample bodies above and reject every other input. -/
def env (raw : String) : Env where
  jsonMarshal := fun b => .ok b
  httpNewRequest := fun _ _ => none
  clientDo := fun _ => .ok ⟨.ok raw⟩
  unmarshalAPIResponse := fun b =>
    if b = failBody then .ok ⟨false, "X", none⟩
    else if b = tokenBody then .ok ⟨true, "", some tokenData⟩
    else if b = loginBody then .ok ⟨true, "", some loginData⟩
    else .error "invalid character"
  unmarshalTokenResponse := fun b =>
    if b = tokenData then .ok ⟨"abc123", "", 0, 0, "", "", ""⟩
    else .error "unexpected end of JSON input"
  unmarshalLoginResp := fun b =>
    if b = loginData then .ok ⟨"tok1", ⟨42, "", "", ""⟩⟩
    else .error "unexpected end of JSON input"
  decodeRequestBody := fun b => .ok b
  marshalIndentConfig := fun c => .ok (c.ServerURL ++ "," ++ c.UserAPIKey)
  writeFile := fun _ _ => none

/-- Settings with every field present, a cached token and no settings file. -/
def ready : State :=
  { config := { ServerURL := "https://login.example.com", UserAPIKey := "key", UserID := 7,
                Port := 8183 },
    cachedToken := "old", configFile := none }

/-- The state `ready` with an empty server URL. -/
def noURL : State := { ready with config := { ready.config with ServerURL := "" } }

/-- The state `ready` with an empty credential cache. -/
def noToken : State := { ready with cachedToken := "" }

/-- A `POST` request whose body is the login form and whose form is empty. -/
def post : Inbound :=
  { Method := "POST", FormValue := fun _ => "", Body := "\x7b\"username\":\"u\"\x7d" }

/-- A `POST` request that submits the settings form `(server_url, user_api_key, user_id)`. -/
def form (serverURL userAPIKey userID : String) : Inbound :=
  { Method := "POST",
    FormValue := fun k =>
      if k = "server_url" then serverURL
      else if k = "user_api_key" then userAPIKey
      else if k = "user_id" then userID
      else "",
    Body := "" }

/-- The payload `{}`. -/
def emptyData : String := "\x7b\x7d"

/-- The body `{"success":true,"data":{}}`. -/
def emptyBody : String := "\x7b\"success\":true,\"data\":" ++ emptyData ++ "\x7d"

/-- The payload `{"token":"tok1"}`. -/
def tokenOnlyData : String := "\x7b\"token\":\"tok1\"\x7d"

/-- The body `{"success":true,"data":{"token":"tok1"}}`. -/
def tokenOnlyBody : String := "\x7b\"success\":true,\"data\":" ++ tokenOnlyData ++ "\x7d"

/-- The fake backend `env raw` with decoders for two more bodies: a successful envelope
whose payload has no field at all, and one whose payload has a token and no user. -/
def sparseEnv (raw : String) : Env :=
  { env raw with
    unmarshalAPIResponse := fun b =>
      if b = emptyBody then .ok ⟨true, "", some emptyData⟩
      else if b = tokenOnlyBody then .ok ⟨true, "", some tokenOnlyData⟩
      else (env raw).unmarshalAPIResponse b
    unmarshalTokenResponse := fun b =>
      if b = emptyData then .ok ⟨"", "", 0, 0, "", "", ""⟩
      else (env raw).unmarshalTokenResponse b
    unmarshalLoginResp := fun b =>
      if b = tokenOnlyData then .ok ⟨"tok1", ⟨0, "", "", ""⟩⟩
      else (env raw).unmarshalLoginResp b }

/-- A start with no settings file, where only `SERVER_URL` is set, to `url`. -/
def boot (url : String) : Boot :=
  { readFile := none,
    unmarshalConfig := fun _ cfg => (cfg, some "unexpected end of JSON input"),
    getenv := fun k => if k = "SERVER_URL" then url else "" }

end Sample

/-! ## Missing credentials -/

/-- C1: whenever the server URL is empty, or the API key is empty, or the user id is 0,
`makeAPIRequest` returns one of its three configuration errors, returns no envelope, and
hands no request to `client.Do`. -/
theorem makeAPIRequest_missing_setting (env : Env) (s : State) (method endpoint : String)
    (h : s.config.ServerURL = "" ∨ s.config.UserAPIKey = "" ∨ s.config.UserID = 0) :
    (∃ msg, (makeAPIRequest env s method endpoint).result = .error msg ∧
      msg ∈ ["服务器地址未配置", "API密钥未配置", "用户ID未配置"]) ∧
    (makeAPIRequest env s method endpoint).calls = [] := by
  unfold makeAPIRequest
  by_cases h1 : s.config.ServerURL = ""
  · simp [h1]
  · by_cases h2 : s.config.UserAPIKey = ""
    · simp [h1, h2]
    · have h3 : s.config.UserID = 0 := by tauto
      simp [h1, h2, h3]

/-- Worked example for C1: with an empty server URL no request leaves the process. -/
theorem makeAPIRequest_missing_setting_witness :
    (Sample.noURL.config.ServerURL = "" ∨ Sample.noURL.config.UserAPIKey = "" ∨
      Sample.noURL.config.UserID = 0) ∧
    ((∃ msg, (makeAPIRequest (Sample.env Sample.tokenBody) Sample.noURL "GET"
        "/api/user-api/profile").result = .error msg ∧
      msg ∈ ["服务器地址未配置", "API密钥未配置", "用户ID未配置"]) ∧
    (makeAPIRequest (Sample.env Sample.tokenBody) Sample.noURL "GET"
      "/api/user-api/profile").calls = []) :=
  ⟨Or.inl rfl, makeAPIRequest_missing_setting (Sample.env Sample.tokenBody) Sample.noURL
    "GET" "/api/user-api/profile" (Or.inl rfl)⟩

/-- C2: whenever the credential cache is empty, `makeJWTRequest` returns a configuration
error (the missing token, or the missing server URL when that is empty too), returns no
envelope, and hands no request to `client.Do`. -/
theorem makeJWTRequest_empty_cache (env : Env) (s : State) (method endpoint : String)
    (body : Option Body) (h : s.cachedToken = "") :
    (makeJWTRequest env s method endpoint body).result =
      .error (if s.config.ServerURL = "" then "服务器地址未配置" else "JWT Token未获取") ∧
    (makeJWTRequest env s method endpoint body).calls = [] := by
  unfold makeJWTRequest
  by_cases h1 : s.config.ServerURL = "" <;> simp [h1, h]

/-- Worked example for C2: with an empty cache no request leaves the process. -/
theorem makeJWTRequest_empty_cache_witness :
    Sample.noToken.cachedToken = "" ∧
    ((makeJWTRequest (Sample.env Sample.tokenBody) Sample.noToken "GET" "/api/auth/profile"
        none).result =
      .error (if Sample.noToken.config.ServerURL = "" then "服务器地址未配置"
        else "JWT Token未获取") ∧
    (makeJWTRequest (Sample.env Sample.tokenBody) Sample.noToken "GET" "/api/auth/profile"
      none).calls = []) :=
  ⟨rfl, makeJWTRequest_empty_cache (Sample.env Sample.tokenBody) Sample.noToken "GET"
    "/api/auth/profile" none rfl⟩

/-! ## What a relay call returns once the backend has answered -/

/-- Once the backend has answered `raw`, `makeAPIRequest` is decided by how `raw`
unmarshals, and exactly one request was handed to `client.Do`. -/
theorem makeAPIRequest_of_exchange {env : Env} {s : State} {method endpoint raw : String}
    (h : APIExchange env s method endpoint raw) :
    makeAPIRequest env s method endpoint =
      match env.unmarshalAPIResponse raw with
      | .error err =>
        ⟨.error ("解析响应失败: " ++ err ++ ", body: " ++ raw), [apiRequest s method endpoint]⟩
      | .ok apiResp =>
        if !apiResp.Success then
          ⟨.error ("API错误: " ++ apiResp.Message), [apiRequest s method endpoint]⟩
        else ⟨.ok apiResp, [apiRequest s method endpoint]⟩ := by
  obtain ⟨h1, h2, h3, h4, resp, h5, h6⟩ := h
  unfold makeAPIRequest
  simp only [h1, h2, h3, h4, h5, h6, if_false]

/-- Once the backend has answered `raw`, `makeJWTRequest` is decided by how `raw`
unmarshals, and exactly one request was handed to `client.Do`. -/
theorem makeJWTRequest_of_exchange {env : Env} {s : State} {method endpoint : String}
    {body : Option Body} {raw : String} (h : JWTExchange env s method endpoint body raw) :
    ∃ reqBody, marshalBody env body = .ok reqBody ∧
    makeJWTRequest env s method endpoint body =
      match env.unmarshalAPIResponse raw with
      | .error err =>
        ⟨.error ("解析响应失败: " ++ err ++ ", body: " ++ raw),
          [jwtRequest s method endpoint reqBody]⟩
      | .ok apiResp =>
        if !apiResp.Success then
          ⟨.error ("API错误: " ++ apiResp.Message), [jwtRequest s method endpoint reqBody]⟩
        else ⟨.ok apiResp, [jwtRequest s method endpoint reqBody]⟩ := by
  obtain ⟨h1, h2, h3, reqBody, resp, h4, h5, h6⟩ := h
  refine ⟨reqBody, h4, ?_⟩
  unfold makeJWTRequest
  simp only [h1, h2, h3, h4, h5, h6, if_false]

/-- Once the backend has answered `raw`, `makePublicRequest` is decided by how `raw`
unmarshals, and exactly one request was handed to `client.Do`. -/
theorem makePublicRequest_of_exchange {env : Env} {s : State} {method endpoint : String}
    {body : Option Body} {raw : String} (h : PublicExchange env s method endpoint body raw) :
    ∃ reqBody, marshalBody env body = .ok reqBody ∧
    makePublicRequest env s method endpoint body =
      match env.unmarshalAPIResponse raw with
      | .error err =>
        ⟨.error ("解析响应失败: " ++ err ++ ", body: " ++ raw),
          [publicRequest s method endpoint reqBody]⟩
      | .ok apiResp => ⟨.ok apiResp, [publicRequest s method endpoint reqBody]⟩ := by
  obtain ⟨h1, h2, reqBody, resp, h3, h4, h5⟩ := h
  refine ⟨reqBody, h3, ?_⟩
  unfold makePublicRequest
  simp only [h1, h2, h3, h4, h5, if_false]

/-- The fake backend answers every staticKey-mode call made in the state `ready`. -/
theorem Sample.apiExchange (raw method endpoint : String) :
    APIExchange (Sample.env raw) Sample.ready method endpoint raw :=
  ⟨by decide, by decide, by decide, rfl, ⟨.ok raw⟩, rfl, rfl⟩

/-- The fake backend answers every bearerToken-mode call made in the state `ready`. -/
theorem Sample.jwtExchange (raw method endpoint : String) (body : Option Body) :
    JWTExchange (Sample.env raw) Sample.ready method endpoint body raw :=
  ⟨by decide, by decide, rfl, body, ⟨.ok raw⟩, by cases body <;> rfl, rfl, rfl⟩

/-- The fake backend answers every public call made in the state `ready`. -/
theorem Sample.publicExchange (raw method endpoint : String) (body : Option Body) :
    PublicExchange (Sample.env raw) Sample.ready method endpoint body raw :=
  ⟨by decide, rfl, body, ⟨.ok raw⟩, by cases body <;> rfl, rfl, rfl⟩

/-! ## Envelope handling -/

/-- C3: when the backend answers an authenticated call with a body that parses to an
envelope with `success = false` and message `X`, the call returns no envelope and the error
`API错误: X`, carrying exactly the backend-supplied message; this holds for
`makeAPIRequest` and for `makeJWTRequest`. -/
theorem authenticated_relay_api_error (env : Env) (s : State) (method endpoint : String)
    (body : Option Body) (X : String) :
    (∀ raw data, APIExchange env s method endpoint raw →
      env.unmarshalAPIResponse raw = .ok ⟨false, X, data⟩ →
      (makeAPIRequest env s method endpoint).result = .error ("API错误: " ++ X)) ∧
    (∀ raw data, JWTExchange env s method endpoint body raw →
      env.unmarshalAPIResponse raw = .ok ⟨false, X, data⟩ →
      (makeJWTRequest env s method endpoint body).result = .error ("API错误: " ++ X)) := by
  constructor
  · intro raw data h hp
    rw [makeAPIRequest_of_exchange h, hp]
    rfl
  · intro raw data h hp
    obtain ⟨reqBody, _, heq⟩ := makeJWTRequest_of_exchange h
    rw [heq, hp]
    rfl

/-- Worked example for C3: the fake backend answers `{"success":false,"message":"X"}` and
both authenticated calls fail with `API错误: X`. -/
theorem authenticated_relay_api_error_witness :
    (makeAPIRequest (Sample.env Sample.failBody) Sample.ready "GET"
      "/api/user-api/profile").result = .error ("API错误: " ++ "X") ∧
    (makeJWTRequest (Sample.env Sample.failBody) Sample.ready "GET" "/api/auth/profile"
      none).result = .error ("API错误: " ++ "X") :=
  ⟨(authenticated_relay_api_error (Sample.env Sample.failBody) Sample.ready "GET"
      "/api/user-api/profile" none "X").1 Sample.failBody none
      (Sample.apiExchange _ _ _) rfl,
    (authenticated_relay_api_error (Sample.env Sample.failBody) Sample.ready "GET"
      "/api/auth/profile" none "X").2 Sample.failBody none
      (Sample.jwtExchange _ _ _ _) rfl⟩

/-- C4: when the backend answers a public call with a body that parses to an envelope `e`
with `success = false`, `makePublicRequest` raises no error and returns `e` itself, so the
returned success is false and the message and data are the backend's. -/
theorem makePublicRequest_failure_returned (env : Env) (s : State) (method endpoint : String)
    (body : Option Body) (raw : String) (e : APIResponse)
    (h : PublicExchange env s method endpoint body raw)
    (hp : env.unmarshalAPIResponse raw = .ok e) (hf : e.Success = false) :
    ∃ r, (makePublicRequest env s method endpoint body).result = .ok r ∧
      r.Success = false ∧ r.Message = e.Message ∧ r.Data = e.Data := by
  obtain ⟨reqBody, _, heq⟩ := makePublicRequest_of_exchange h
  refine ⟨e, ?_, hf, rfl, rfl⟩
  rw [heq, hp]

/-- Worked example for C4: the fake backend answers `{"success":false,"message":"X"}` to a
public call, which returns that envelope. -/
theorem makePublicRequest_failure_returned_witness :
    ∃ r, (makePublicRequest (Sample.env Sample.failBody) Sample.ready "POST"
        "/api/auth/login" (some "u")).result = .ok r ∧
      r.Success = false ∧ r.Message = "X" ∧ r.Data = none :=
  makePublicRequest_failure_returned (Sample.env Sample.failBody) Sample.ready "POST"
    "/api/auth/login" (some "u") Sample.failBody ⟨false, "X", none⟩
    (Sample.publicExchange _ _ _ _) rfl rfl

/-- C5: when the backend answers with a body that parses to the envelope
`{success: true, message: msg, data: d}`, each of the three relay calls returns no error and
that envelope, whose data is `d` unchanged. -/
theorem relay_round_trip (env : Env) (s : State) (method endpoint : String)
    (body : Option Body) (msg : String) (d : Option String) :
    (∀ raw, APIExchange env s method endpoint raw →
      env.unmarshalAPIResponse raw = .ok ⟨true, msg, d⟩ →
      (makeAPIRequest env s method endpoint).result = .ok ⟨true, msg, d⟩) ∧
    (∀ raw, JWTExchange env s method endpoint body raw →
      env.unmarshalAPIResponse raw = .ok ⟨true, msg, d⟩ →
      (makeJWTRequest env s method endpoint body).result = .ok ⟨true, msg, d⟩) ∧
    (∀ raw, PublicExchange env s method endpoint body raw →
      env.unmarshalAPIResponse raw = .ok ⟨true, msg, d⟩ →
      (makePublicRequest env s method endpoint body).result = .ok ⟨true, msg, d⟩) := by
  refine ⟨?_, ?_, ?_⟩
  · intro raw h hp
    rw [makeAPIRequest_of_exchange h, hp]
    rfl
  · intro raw h hp
    obtain ⟨reqBody, _, heq⟩ := makeJWTRequest_of_exchange h
    rw [heq, hp]
    rfl
  · intro raw h hp
    obtain ⟨reqBody, _, heq⟩ := makePublicRequest_of_exchange h
    rw [heq, hp]

/-- Worked example for C5: the fake backend answers
`{"success":true,"data":{"access_token":"abc123"}}` and each relay call returns the
payload `{"access_token":"abc123"}`. -/
theorem relay_round_trip_witness :
    (makeAPIRequest (Sample.env Sample.tokenBody) Sample.ready "POST"
      "/api/user-api/token").result = .ok ⟨true, "", some Sample.tokenData⟩ ∧
    (makeJWTRequest (Sample.env Sample.tokenBody) Sample.ready "POST" "/api/user-api/token"
      (some "b")).result = .ok ⟨true, "", some Sample.tokenData⟩ ∧
    (makePublicRequest (Sample.env Sample.tokenBody) Sample.ready "POST"
      "/api/user-api/token" (some "b")).result = .ok ⟨true, "", some Sample.tokenData⟩ :=
  have h := relay_round_trip (Sample.env Sample.tokenBody) Sample.ready "POST"
    "/api/user-api/token" (some "b") "" (some Sample.tokenData)
  ⟨h.1 Sample.tokenBody (Sample.apiExchange _ _ _) rfl,
    h.2.1 Sample.tokenBody (Sample.jwtExchange _ _ _ _) rfl,
    h.2.2 Sample.tokenBody (Sample.publicExchange _ _ _ _) rfl⟩

/-- C6: when the backend answers with a body `raw` that does not parse as an envelope
(`json.Unmarshal` fails with `err`), each of the three relay calls returns no envelope and
the decode error `解析响应失败: err, body: raw`, which ends with the raw body. -/
theorem relay_decode_error (env : Env) (s : State) (method endpoint : String)
    (body : Option Body) (raw err : String)
    (hp : env.unmarshalAPIResponse raw = .error err) :
    (APIExchange env s method endpoint raw →
      (makeAPIRequest env s method endpoint).result =
        .error ("解析响应失败: " ++ err ++ ", body: " ++ raw)) ∧
    (JWTExchange env s method endpoint body raw →
      (makeJWTRequest env s method endpoint body).result =
        .error ("解析响应失败: " ++ err ++ ", body: " ++ raw)) ∧
    (PublicExchange env s method endpoint body raw →
      (makePublicRequest env s method endpoint body).result =
        .error ("解析响应失败: " ++ err ++ ", body: " ++ raw)) := by
  refine ⟨?_, ?_, ?_⟩
  · intro h
    rw [makeAPIRequest_of_exchange h, hp]
  · intro h
    obtain ⟨reqBody, _, heq⟩ := makeJWTRequest_of_exchange h
    rw [heq, hp]
  · intro h
    obtain ⟨reqBody, _, heq⟩ := makePublicRequest_of_exchange h
    rw [heq, hp]

/-- Worked example for C6: the fake backend answers `<html>502</html>` and each relay call
fails with a decode error that quotes it. -/
theorem relay_decode_error_witness :
    (makeAPIRequest (Sample.env Sample.garbage) Sample.ready "GET"
      "/api/user-api/profile").result =
      .error ("解析响应失败: " ++ "invalid character" ++ ", body: " ++ Sample.garbage) ∧
    (makeJWTRequest (Sample.env Sample.garbage) Sample.ready "GET" "/api/user-api/profile"
      none).result =
      .error ("解析响应失败: " ++ "invalid character" ++ ", body: " ++ Sample.garbage) ∧
    (makePublicRequest (Sample.env Sample.garbage) Sample.ready "GET"
      "/api/user-api/profile" none).result =
      .error ("解析响应失败: " ++ "invalid character" ++ ", body: " ++ Sample.garbage) :=
  have h := relay_decode_error (Sample.env Sample.garbage) Sample.ready "GET"
    "/api/user-api/profile" none Sample.garbage "invalid character" rfl
  ⟨h.1 (Sample.apiExchange _ _ _), h.2.1 (Sample.jwtExchange _ _ _ _),
    h.2.2 (Sample.publicExchange _ _ _ _)⟩

/-! ## The credential cache -/

/-- C7: after a settings update (`handleConfig` on a `POST`), whatever the prior state, the
submitted form and the outcome of saving, the credential cache is empty. -/
theorem handleConfig_clears_cache (env : Env) (s : State) (r : Inbound)
    (h : r.Method = "POST") : (handleConfig env s r).state.cachedToken = "" := by
  unfold handleConfig saveConfig
  simp only [h, if_true]
  split <;> rename_i heq <;> split at heq <;> try split at heq
  all_goals
    simp only [Prod.mk.injEq] at heq
    obtain ⟨h1, _⟩ := heq
    rw [← h1]

/-- Worked example for C7: a settings update in a state that holds the token `old`. -/
theorem handleConfig_clears_cache_witness :
    Sample.post.Method = "POST" ∧
    (handleConfig (Sample.env Sample.garbage) Sample.ready Sample.post).state.cachedToken = "" :=
  ⟨rfl, handleConfig_clears_cache (Sample.env Sample.garbage) Sample.ready Sample.post rfl⟩

/-- The request `makeJWTRequest` builds carries the cached token as its `Authorization`
header. -/
theorem jwtRequest_authorization (s : State) (method endpoint : String)
    (reqBody : Option String) :
    (jwtRequest s method endpoint reqBody).header.get "Authorization" =
      some ("Bearer " ++ s.cachedToken) := by
  cases reqBody <;>
    simp [jwtRequest, Request.new, Request.setHeader, Header.set, Header.get]

/-- Every request `makeJWTRequest` hands to `client.Do` is the request `jwtRequest` of some
serialised body. -/
theorem makeJWTRequest_calls (env : Env) (s : State) (method endpoint : String)
    (body : Option Body) :
    ∀ req ∈ (makeJWTRequest env s method endpoint body).calls,
      ∃ reqBody, req = jwtRequest s method endpoint reqBody := by
  intro req hreq
  unfold makeJWTRequest at hreq
  repeat' first | split at hreq | dsimp only at hreq
  all_goals
    first
    | exact absurd hreq (List.not_mem_nil _)
    | exact ⟨_, List.mem_singleton.mp hreq⟩

/-- A staticKey-mode call that returns an envelope was made with a server URL. -/
theorem makeAPIRequest_ok_serverURL {env : Env} {s : State} {method endpoint : String}
    {resp : APIResponse} (h : (makeAPIRequest env s method endpoint).result = .ok resp) :
    s.config.ServerURL ≠ "" := by
  intro h0
  unfold makeAPIRequest at h
  simp [h0] at h

/-- The state `handleAPIToken` leaves after an exchange that returned the envelope `resp`
whose data unmarshals to `token`. -/
theorem handleAPIToken_state {env : Env} {s : State} {resp : APIResponse}
    {token : TokenResponse}
    (hx : (makeAPIRequest env s "POST" "/api/user-api/token").result = .ok resp)
    (hd : env.unmarshalTokenResponse (resp.Data.getD "") = .ok token) :
    (handleAPIToken env s).state = { s with cachedToken := token.AccessToken } := by
  unfold handleAPIToken exchangeForToken
  simp only [hx, hd]

/-- C8: after a token exchange (`handleAPIToken`) whose backend envelope is
`{success: true, data: d}` with `d` unmarshalling to a token response whose access token is
the non-empty `t`, the credential cache holds `t`, and every later bearerToken-mode call
made in that state, whatever the backend then does, hands to `client.Do` only requests
whose `Authorization` header is `Bearer t`, and hands one over whenever its body serialises
and `http.NewRequest` accepts it. -/
theorem token_exchange_then_bearer (env : Env) (s : State) (t msg d : String)
    (token : TokenResponse) (ht : t ≠ "")
    (hx : (makeAPIRequest env s "POST" "/api/user-api/token").result =
      .ok ⟨true, msg, some d⟩)
    (hd : env.unmarshalTokenResponse d = .ok token) (hat : token.AccessToken = t) :
    (handleAPIToken env s).state.cachedToken = t ∧
    ∀ (env2 : Env) (method endpoint : String) (body : Option Body),
      (∀ req ∈ (makeJWTRequest env2 (handleAPIToken env s).state method endpoint body).calls,
        req.header.get "Authorization" = some ("Bearer " ++ t)) ∧
      (∀ reqBody, marshalBody env2 body = .ok reqBody →
        env2.httpNewRequest method
          ((handleAPIToken env s).state.config.ServerURL ++ endpoint) = none →
        (makeJWTRequest env2 (handleAPIToken env s).state method endpoint body).calls =
          [jwtRequest (handleAPIToken env s).state method endpoint reqBody]) := by
  have hs : (handleAPIToken env s).state = { s with cachedToken := t } := by
    rw [handleAPIToken_state hx (by simpa using hd), hat]
  have hurl := makeAPIRequest_ok_serverURL hx
  rw [hs]
  refine ⟨rfl, fun env2 method endpoint body => ⟨?_, ?_⟩⟩
  · intro req hreq
    obtain ⟨reqBody, rfl⟩ := makeJWTRequest_calls env2 _ method endpoint body req hreq
    exact jwtRequest_authorization _ method endpoint reqBody
  · intro reqBody hm hn
    unfold makeJWTRequest
    simp only [hurl, ht, hm, hn, if_false]
    repeat' first | split | dsimp only

/-- Worked example for C8: the fake backend answers
`{"success":true,"data":{"access_token":"abc123"}}` to the exchange; afterwards the cache
holds `abc123` and a bearerToken-mode call sends `Authorization: Bearer abc123`. -/
theorem token_exchange_then_bearer_witness :
    (handleAPIToken (Sample.env Sample.tokenBody) Sample.ready).state.cachedToken = "abc123" ∧
    ∀ req ∈ (makeJWTRequest (Sample.env Sample.failBody)
        (handleAPIToken (Sample.env Sample.tokenBody) Sample.ready).state "GET"
        "/api/auth/profile" none).calls,
      req.header.get "Authorization" = some ("Bearer " ++ "abc123") :=
  have h := token_exchange_then_bearer (Sample.env Sample.tokenBody) Sample.ready "abc123"
    "" Sample.tokenData ⟨"abc123", "", 0, 0, "", "", ""⟩ (by decide) rfl rfl rfl
  ⟨h.1, (h.2 (Sample.env Sample.failBody) "GET" "/api/auth/profile" none).1⟩

/-- C9: a login (`handleLogin`) or a registration (`handleRegister`) whose backend envelope
is `{success: true, data: d}`, with `d` unmarshalling to the non-empty token `t` and the
user id `n`, leaves the credential cache equal to `t` and the account identifier of the
settings equal to `n`. -/
theorem login_register_success_caches (env : Env) (s : State) (r : Inbound) (t : String)
    (n : Nat) (ht : t ≠ "") :
    (∀ body msg d resp, r.Method = "POST" → env.decodeRequestBody r.Body = .ok body →
      (makePublicRequest env s "POST" "/api/auth/login" (some body)).result =
        .ok ⟨true, msg, some d⟩ →
      env.unmarshalLoginResp d = .ok resp → resp.Token = t → resp.User.ID = n →
      (handleLogin env s r).state.cachedToken = t ∧
      (handleLogin env s r).state.config.UserID = n) ∧
    (∀ body msg d resp, r.Method = "POST" → env.decodeRequestBody r.Body = .ok body →
      (makePublicRequest env s "POST" "/api/auth/register" (some body)).result =
        .ok ⟨true, msg, some d⟩ →
      env.unmarshalLoginResp d = .ok resp → resp.Token = t → resp.User.ID = n →
      (handleRegister env s r).state.cachedToken = t ∧
      (handleRegister env s r).state.config.UserID = n) := by
  constructor
  · intro body msg d resp hm hb hr hu h1 h2
    unfold handleLogin
    simp [hm, hb, hr, hu, h1, h2, ht]
  · intro body msg d resp hm hb hr hu h1 h2
    unfold handleRegister
    simp [hm, hb, hr, hu, h1, h2, ht]

/-- Worked example for C9: the fake backend answers
`{"success":true,"data":{"token":"tok1","user":{"id":42}}}`; the login and the registration
leave the cache at `tok1` and the account identifier at 42. -/
theorem login_register_success_caches_witness :
    ((handleLogin (Sample.env Sample.loginBody) Sample.ready Sample.post).state.cachedToken
        = "tok1" ∧
      (handleLogin (Sample.env Sample.loginBody) Sample.ready Sample.post).state.config.UserID
        = 42) ∧
    ((handleRegister (Sample.env Sample.loginBody) Sample.ready Sample.post).state.cachedToken
        = "tok1" ∧
      (handleRegister (Sample.env Sample.loginBody) Sample.ready
        Sample.post).state.config.UserID = 42) :=
  have h := login_register_success_caches (Sample.env Sample.loginBody) Sample.ready
    Sample.post "tok1" 42 (by decide)
  ⟨h.1 Sample.post.Body "" Sample.loginData ⟨"tok1", ⟨42, "", "", ""⟩⟩ rfl rfl rfl rfl rfl rfl,
    h.2 Sample.post.Body "" Sample.loginData ⟨"tok1", ⟨42, "", "", ""⟩⟩ rfl rfl rfl rfl rfl
      rfl⟩

/-- C10: a login (`handleLogin`) or a registration (`handleRegister`) whose backend envelope
`e` has `success = false`, whatever its message and data, leaves the whole state (the
credential cache and every settings field) as it was, and replies with the success flag,
the message and the data of `e`. -/
theorem login_register_failure_frame (env : Env) (s : State) (r : Inbound) (e : APIResponse)
    (hf : e.Success = false) :
    (∀ body, r.Method = "POST" → env.decodeRequestBody r.Body = .ok body →
      (makePublicRequest env s "POST" "/api/auth/login" (some body)).result = .ok e →
      (handleLogin env s r).state = s ∧
      (handleLogin env s r).reply =
        .json [("success", .bool false), ("message", .str e.Message), ("data", .raw e.Data)]) ∧
    (∀ body, r.Method = "POST" → env.decodeRequestBody r.Body = .ok body →
      (makePublicRequest env s "POST" "/api/auth/register" (some body)).result = .ok e →
      (handleRegister env s r).state = s ∧
      (handleRegister env s r).reply =
        .json [("success", .bool false), ("message", .str e.Message), ("data", .raw e.Data)]) := by
  constructor
  · intro body hm hb hr
    unfold handleLogin
    simp [hm, hb, hr, hf]
  · intro body hm hb hr
    unfold handleRegister
    simp [hm, hb, hr, hf]

/-- Worked example for C10: the fake backend answers `{"success":false,"message":"X"}`; the
login and the registration leave the state as it was and reply with that envelope. -/
theorem login_register_failure_frame_witness :
    ((handleLogin (Sample.env Sample.failBody) Sample.ready Sample.post).state = Sample.ready ∧
      (handleLogin (Sample.env Sample.failBody) Sample.ready Sample.post).reply =
        .json [("success", .bool false), ("message", .str "X"), ("data", .raw none)]) ∧
    ((handleRegister (Sample.env Sample.failBody) Sample.ready Sample.post).state
        = Sample.ready ∧
      (handleRegister (Sample.env Sample.failBody) Sample.ready Sample.post).reply =
        .json [("success", .bool false), ("message", .str "X"), ("data", .raw none)]) :=
  have h := login_register_failure_frame (Sample.env Sample.failBody) Sample.ready
    Sample.post ⟨false, "X", none⟩ rfl
  ⟨h.1 Sample.post.Body rfl rfl rfl, h.2 Sample.post.Body rfl rfl rfl⟩

/-! ## The credential lifecycle -/

/-- C11 at its failing input: the cache holds `old`, the backend answers the token exchange
with `{"success":true,"data":{}}`, and `handleAPIToken` stores the empty access token, so a
step that is not a settings update takes a non-empty cache to an empty one. -/
theorem token_exchange_empties_cache :
    Sample.ready.cachedToken ≠ "" ∧
    (handleAPIToken (Sample.sparseEnv Sample.emptyBody) Sample.ready).reply =
      .json [("success", .bool true), ("data", .token ⟨"", "", 0, 0, "", "", ""⟩)] ∧
    (step (Sample.sparseEnv Sample.emptyBody) Sample.ready .tokenExchange).cachedToken = "" :=
  ⟨by decide, rfl, rfl⟩

/-- A login leaves a non-empty cache non-empty: it writes the cache only with a token it
has tested to be non-empty. -/
theorem handleLogin_cache_ne (env : Env) (s : State) (r : Inbound)
    (h : s.cachedToken ≠ "") : (handleLogin env s r).state.cachedToken ≠ "" := by
  unfold handleLogin
  repeat' first | split | dsimp only
  all_goals first | exact h | assumption

/-- A registration leaves a non-empty cache non-empty, as a login does. -/
theorem handleRegister_cache_ne (env : Env) (s : State) (r : Inbound)
    (h : s.cachedToken ≠ "") : (handleRegister env s r).state.cachedToken ≠ "" := by
  unfold handleRegister
  repeat' first | split | dsimp only
  all_goals first | exact h | assumption

/-- A token exchange leaves a non-empty cache non-empty unless the token response it
unmarshals has an empty access token. -/
theorem handleAPIToken_cache_ne (env : Env) (s : State) (h : s.cachedToken ≠ "")
    (ht : ∀ token, (exchangeForToken env s).1 = .ok token → token.AccessToken ≠ "") :
    (handleAPIToken env s).state.cachedToken ≠ "" := by
  unfold handleAPIToken
  split
  · exact h
  · rename_i token calls heq
    exact ht token (by rw [heq])

/-- Every step other than a settings update and a token exchange leaves a non-empty cache
non-empty, whatever the backend answers. -/
theorem step_cache_ne (env : Env) (s : State) (a : Action) (h : s.cachedToken ≠ "")
    (hu : ∀ r, a ≠ .settingsUpdate r) (hx : a ≠ .tokenExchange) :
    (step env s a).cachedToken ≠ "" := by
  cases a with
  | settingsUpdate r => exact absurd rfl (hu r)
  | tokenExchange => exact absurd rfl hx
  | login r => exact handleLogin_cache_ne env s r h
  | register r => exact handleRegister_cache_ne env s r h
  | apiCall _ _ => exact h
  | jwtCall _ _ _ => exact h
  | publicCall _ _ _ => exact h

/-! ## The settings -/

/-- The function `saveConfig` changes neither the settings nor the cache. -/
theorem saveConfig_frame (env : Env) (s : State) :
    (saveConfig env s).1.config = s.config ∧
    (saveConfig env s).1.cachedToken = s.cachedToken := by
  unfold saveConfig
  repeat' first | split | dsimp only
  all_goals exact ⟨rfl, rfl⟩

/-- The state a `POST` to `handleConfig` leaves is the one `saveConfig` returns for the
updated settings and the emptied cache. -/
theorem handleConfig_state (env : Env) (s : State) (r : Inbound) (h : r.Method = "POST") :
    (handleConfig env s r).state =
      (saveConfig env
        { s with
          config :=
            match parseUintBase10 (r.FormValue "user_id") 32 with
            | some uid =>
              { ServerURL := trimSuffix (r.FormValue "server_url") "/",
                UserAPIKey := r.FormValue "user_api_key", UserID := uid,
                Port := s.config.Port }
            | none =>
              { ServerURL := trimSuffix (r.FormValue "server_url") "/",
                UserAPIKey := r.FormValue "user_api_key", UserID := s.config.UserID,
                Port := s.config.Port },
          cachedToken := "" }).1 := by
  unfold handleConfig
  simp only [h, if_true]
  split <;> rename_i heq <;> rw [heq]

/-- The settings a `POST` to `handleConfig` leaves in memory, whatever saving does. -/
theorem handleConfig_config (env : Env) (s : State) (r : Inbound) (h : r.Method = "POST") :
    (handleConfig env s r).state.config =
      match parseUintBase10 (r.FormValue "user_id") 32 with
      | some uid =>
        { ServerURL := trimSuffix (r.FormValue "server_url") "/",
          UserAPIKey := r.FormValue "user_api_key", UserID := uid, Port := s.config.Port }
      | none =>
        { ServerURL := trimSuffix (r.FormValue "server_url") "/",
          UserAPIKey := r.FormValue "user_api_key", UserID := s.config.UserID,
          Port := s.config.Port } := by
  rw [handleConfig_state env s r h, (saveConfig_frame env _).1]

/-- C12 at its failing input: the submitted server URL `https://login.example.com//`, and
likewise the environment variable `SERVER_URL` with that value, leaves an in-memory server
URL that ends with a slash, because `strings.TrimSuffix` removes one slash only. -/
theorem serverURL_keeps_second_slash :
    (handleConfig (Sample.env "") Sample.ready
      (Sample.form "https://login.example.com//" "key" "7")).state.config.ServerURL =
      "https://login.example.com/" ∧
    (loadConfig (Sample.boot "https://login.example.com//")).ServerURL =
      "https://login.example.com/" ∧
    EndsWithSlash "https://login.example.com/" := by
  refine ⟨by decide, by decide, ?_⟩
  unfold EndsWithSlash
  decide

/-- A step that is not a settings update leaves the server URL as it is. -/
theorem step_serverURL (env : Env) (s : State) (a : Action)
    (hu : ∀ r, a ≠ .settingsUpdate r) :
    (step env s a).config.ServerURL = s.config.ServerURL := by
  cases a with
  | settingsUpdate r => exact absurd rfl (hu r)
  | tokenExchange =>
    show (handleAPIToken env s).state.config.ServerURL = _
    unfold handleAPIToken
    split <;> rfl
  | login r =>
    show (handleLogin env s r).state.config.ServerURL = _
    unfold handleLogin
    repeat' first | split | dsimp only
  | register r =>
    show (handleRegister env s r).state.config.ServerURL = _
    unfold handleRegister
    repeat' first | split | dsimp only
  | apiCall _ _ => rfl
  | jwtCall _ _ _ => rfl
  | publicCall _ _ _ => rfl

/-- A decimal numeral of `n` parses to `n` exactly when `n` fits the given number of
bits. -/
theorem parseUintBase10_of_isDecimal {v : String} {n bitSize : Nat} (h : IsDecimal v n) :
    parseUintBase10 v bitSize = if n < 2 ^ bitSize then some n else none := by
  obtain ⟨h1, h2, h3⟩ := h
  unfold decimalValue at h3
  unfold parseUintBase10
  simp only [h1, h2, h3, if_false, if_true]

/-- C13 as stated fails: the submitted account identifier `4294967296` is a decimal
unsigned integer, yet after the update the account identifier is still the previous one,
7, because `strconv.ParseUint` is asked for 32 bits. -/
theorem handleConfig_wide_userID_kept :
    IsDecimal ((Sample.form "https://login.example.com/" "key2" "4294967296").FormValue
      "user_id") 4294967296 ∧
    (handleConfig (Sample.env "") Sample.ready
      (Sample.form "https://login.example.com/" "key2" "4294967296")).state.config.UserID = 7 ∧
    (handleConfig (Sample.env "") Sample.ready
      (Sample.form "https://login.example.com/" "key2" "4294967296")).state.config.UserID ≠
      4294967296 := by
  refine ⟨⟨by decide, by decide, by decide⟩, by decide, by decide⟩

/-- For a string that does not end with two slashes, `strings.TrimSuffix(url, "/")` is
`url` with its trailing slash stripped: `url` is the result, or the result followed by a
slash, and the result does not end with a slash. -/
theorem trimSuffix_slash (url : String) (h : ¬ EndsWithTwoSlashes url) :
    (url = trimSuffix url "/" ∨ url = trimSuffix url "/" ++ "/") ∧
    ¬ EndsWithSlash (trimSuffix url "/") := by
  cases url with
  | mk l =>
    rcases List.eq_nil_or_concat l with rfl | ⟨init, c, rfl⟩
    · simp [trimSuffix, EndsWithSlash, List.isSuffixOf]
    · simp only [List.concat_eq_append] at h ⊢
      by_cases hc : c = '/'
      · subst hc
        have hi : init.getLast? ≠ some '/' := by
          intro hl
          apply h
          rcases List.eq_nil_or_concat init with rfl | ⟨i2, c2, rfl⟩
          · simp at hl
          · simp at hl
            subst hl
            simp [EndsWithTwoSlashes, List.isSuffixOf]
        have ht : trimSuffix (String.mk (init ++ ['/'])) "/" = String.mk init := by
          simp [trimSuffix, List.isSuffixOf]
        rw [ht]
        refine ⟨Or.inr ?_, hi⟩
        apply String.ext
        simp
      · have ht : trimSuffix (String.mk (init ++ [c])) "/" = String.mk (init ++ [c]) := by
          simp [trimSuffix, List.isSuffixOf, Ne.symm hc]
        rw [ht]
        refine ⟨Or.inl rfl, ?_⟩
        simp [EndsWithSlash, hc]

/-- C13 amended: after a settings update whose account identifier is a decimal numeral of
an `n` below 2^32, and whose submitted server URL does not end with two slashes, the
in-memory settings are the submitted ones: the server URL is the submitted one with its
trailing slash stripped (the submitted URL is the stored one, or the stored one followed
by a slash, and the stored one does not end with a slash), the API key is the submitted
one, and the account identifier is `n`. -/
theorem handleConfig_replaces_settings (env : Env) (s : State) (r : Inbound) (n : Nat)
    (hm : r.Method = "POST") (hd : IsDecimal (r.FormValue "user_id") n) (hn : n < 2 ^ 32)
    (hu : ¬ EndsWithTwoSlashes (r.FormValue "server_url")) :
    ((r.FormValue "server_url" = (handleConfig env s r).state.config.ServerURL ∨
        r.FormValue "server_url" = (handleConfig env s r).state.config.ServerURL ++ "/") ∧
      ¬ EndsWithSlash (handleConfig env s r).state.config.ServerURL) ∧
    (handleConfig env s r).state.config.UserAPIKey = r.FormValue "user_api_key" ∧
    (handleConfig env s r).state.config.UserID = n := by
  rw [handleConfig_config env s r hm, parseUintBase10_of_isDecimal hd, if_pos hn]
  exact ⟨trimSuffix_slash _ hu, rfl, rfl⟩

/-- Worked example for C13: the form `(https://b.example.com/, key2, 42)` replaces the
settings of the state `ready`; the stored server URL is `https://b.example.com`. -/
theorem handleConfig_replaces_settings_witness :
    (((Sample.form "https://b.example.com/" "key2" "42").FormValue "server_url" =
          (handleConfig (Sample.env "") Sample.ready
            (Sample.form "https://b.example.com/" "key2" "42")).state.config.ServerURL ∨
        (Sample.form "https://b.example.com/" "key2" "42").FormValue "server_url" =
          (handleConfig (Sample.env "") Sample.ready
            (Sample.form "https://b.example.com/" "key2" "42")).state.config.ServerURL
            ++ "/") ∧
      ¬ EndsWithSlash (handleConfig (Sample.env "") Sample.ready
        (Sample.form "https://b.example.com/" "key2" "42")).state.config.ServerURL) ∧
    (handleConfig (Sample.env "") Sample.ready
      (Sample.form "https://b.example.com/" "key2" "42")).state.config.UserAPIKey =
      (Sample.form "https://b.example.com/" "key2" "42").FormValue "user_api_key" ∧
    (handleConfig (Sample.env "") Sample.ready
      (Sample.form "https://b.example.com/" "key2" "42")).state.config.UserID = 42 :=
  handleConfig_replaces_settings (Sample.env "") Sample.ready
    (Sample.form "https://b.example.com/" "key2" "42") 42 rfl
    ⟨by decide, by decide, by decide⟩ (by decide)
    (by unfold EndsWithTwoSlashes; decide)

/-- C16: a settings update whose account identifier does not parse as a base-10 unsigned
32-bit integer is not rejected. It keeps the previous account identifier, replaces the
server URL and the API key with the submitted values, empties the credential cache, and
saves: the reply is the redirect of a saved update or the error of a failed save, and when
the settings serialise and the file is written the file holds them and the reply is the
redirect. -/
theorem handleConfig_unparsed_userID (env : Env) (s : State) (r : Inbound)
    (hm : r.Method = "POST") (hp : parseUintBase10 (r.FormValue "user_id") 32 = none) :
    (handleConfig env s r).state.config =
      { ServerURL := trimSuffix (r.FormValue "server_url") "/",
        UserAPIKey := r.FormValue "user_api_key", UserID := s.config.UserID,
        Port := s.config.Port } ∧
    (handleConfig env s r).state.cachedToken = "" ∧
    ((handleConfig env s r).reply = .redirect "/?success=config_saved" 303 ∨
      (handleConfig env s r).reply = .error "保存配置失败" 500) ∧
    (∀ data,
      env.marshalIndentConfig
        { ServerURL := trimSuffix (r.FormValue "server_url") "/",
          UserAPIKey := r.FormValue "user_api_key", UserID := s.config.UserID,
          Port := s.config.Port } = .ok data →
      env.writeFile configFileName data = none →
      (handleConfig env s r).state.configFile = some data ∧
      (handleConfig env s r).reply = .redirect "/?success=config_saved" 303) := by
  refine ⟨?_, ?_, ?_, ?_⟩
  · rw [handleConfig_config env s r hm, hp]
  · rw [handleConfig_state env s r hm, (saveConfig_frame env _).2]
  · unfold handleConfig
    simp only [hm, if_true]
    split
    · exact Or.inr rfl
    · exact Or.inl rfl
  · intro data hd hw
    unfold handleConfig saveConfig
    simp [hm, hp, hd, hw]

/-- Worked example for C16: the form `(https://b.example.com/, key2, 12x)` keeps the
account identifier 7 of the state `ready`, replaces the rest, empties the cache and is
saved. -/
theorem handleConfig_unparsed_userID_witness :
    (handleConfig (Sample.env "") Sample.ready
      (Sample.form "https://b.example.com/" "key2" "12x")).state.config =
      { ServerURL := "https://b.example.com", UserAPIKey := "key2", UserID := 7,
        Port := 8183 } ∧
    (handleConfig (Sample.env "") Sample.ready
      (Sample.form "https://b.example.com/" "key2" "12x")).state.cachedToken = "" ∧
    (handleConfig (Sample.env "") Sample.ready
      (Sample.form "https://b.example.com/" "key2" "12x")).state.configFile =
      some "https://b.example.com,key2" ∧
    (handleConfig (Sample.env "") Sample.ready
      (Sample.form "https://b.example.com/" "key2" "12x")).reply =
      .redirect "/?success=config_saved" 303 :=
  have h := handleConfig_unparsed_userID (Sample.env "") Sample.ready
    (Sample.form "https://b.example.com/" "key2" "12x") rfl (by decide)
  have hs := h.2.2.2 "https://b.example.com,key2" rfl rfl
  ⟨h.1, h.2.1, hs.1, hs.2⟩

/-! ## The public relay -/

/-- Every request `makePublicRequest` hands to `client.Do` is the request `publicRequest`
of some serialised body. -/
theorem makePublicRequest_calls (env : Env) (s : State) (method endpoint : String)
    (body : Option Body) :
    ∀ req ∈ (makePublicRequest env s method endpoint body).calls,
      ∃ reqBody, req = publicRequest s method endpoint reqBody := by
  intro req hreq
  unfold makePublicRequest at hreq
  repeat' first | split at hreq | dsimp only at hreq
  all_goals
    first
    | exact absurd hreq (List.not_mem_nil _)
    | exact ⟨_, List.mem_singleton.mp hreq⟩

/-- The header of the request `makePublicRequest` builds has the keys `Accept` and
`Content-Type` at most, and none of the three credential keys. -/
theorem publicRequest_header (s : State) (method endpoint : String)
    (reqBody : Option String) :
    (∀ kv ∈ (publicRequest s method endpoint reqBody).header,
      kv.1 = "Accept" ∨ kv.1 = "Content-Type") ∧
    (publicRequest s method endpoint reqBody).header.get "Authorization" = none ∧
    (publicRequest s method endpoint reqBody).header.get "X-User-API-Key" = none ∧
    (publicRequest s method endpoint reqBody).header.get "X-User-ID" = none := by
  cases reqBody <;>
    simp [publicRequest, Request.new, Request.setHeader, Header.set, Header.get]

/-- The request `makePublicRequest` builds reads the server URL of the state and nothing
else of it. -/
theorem publicRequest_congr {s1 s2 : State} (h : s1.config.ServerURL = s2.config.ServerURL)
    (method endpoint : String) (reqBody : Option String) :
    publicRequest s1 method endpoint reqBody = publicRequest s2 method endpoint reqBody := by
  unfold publicRequest
  rw [h]

/-- C14: every request `makePublicRequest` hands to `client.Do` has a header whose only
keys are `Accept` and `Content-Type`, so no `Authorization`, `X-User-API-Key` or
`X-User-ID` header; and for two states with the same server URL, whatever their API keys,
account identifiers and credential caches, the call hands over the same requests and
returns the same result. -/
theorem makePublicRequest_no_credential (env : Env) (s1 s2 : State)
    (method endpoint : String) (body : Option Body)
    (h : s1.config.ServerURL = s2.config.ServerURL) :
    (∀ req ∈ (makePublicRequest env s1 method endpoint body).calls,
      (∀ kv ∈ req.header, kv.1 = "Accept" ∨ kv.1 = "Content-Type") ∧
      req.header.get "Authorization" = none ∧ req.header.get "X-User-API-Key" = none ∧
      req.header.get "X-User-ID" = none) ∧
    (makePublicRequest env s1 method endpoint body).calls =
      (makePublicRequest env s2 method endpoint body).calls ∧
    (makePublicRequest env s1 method endpoint body).result =
      (makePublicRequest env s2 method endpoint body).result := by
  have heq : makePublicRequest env s1 method endpoint body =
      makePublicRequest env s2 method endpoint body := by
    unfold makePublicRequest
    simp only [h, publicRequest_congr h]
  refine ⟨?_, by rw [heq], by rw [heq]⟩
  intro req hreq
  obtain ⟨reqBody, rfl⟩ := makePublicRequest_calls env s1 method endpoint body req hreq
  exact publicRequest_header s1 method endpoint reqBody

/-- Worked example for C14: the login request built in the state `ready` and in a state
with another API key, account identifier and cache. -/
theorem makePublicRequest_no_credential_witness :
    (∀ req ∈ (makePublicRequest (Sample.env Sample.loginBody) Sample.ready "POST"
        "/api/auth/login" (some "u")).calls,
      (∀ kv ∈ req.header, kv.1 = "Accept" ∨ kv.1 = "Content-Type") ∧
      req.header.get "Authorization" = none ∧ req.header.get "X-User-API-Key" = none ∧
      req.header.get "X-User-ID" = none) ∧
    (makePublicRequest (Sample.env Sample.loginBody) Sample.ready "POST" "/api/auth/login"
      (some "u")).calls =
      (makePublicRequest (Sample.env Sample.loginBody)
        { config := { Sample.ready.config with UserAPIKey := "other", UserID := 9 },
          cachedToken := "", configFile := none } "POST" "/api/auth/login" (some "u")).calls ∧
    (makePublicRequest (Sample.env Sample.loginBody) Sample.ready "POST" "/api/auth/login"
      (some "u")).result =
      (makePublicRequest (Sample.env Sample.loginBody)
        { config := { Sample.ready.config with UserAPIKey := "other", UserID := 9 },
          cachedToken := "", configFile := none } "POST" "/api/auth/login"
        (some "u")).result :=
  makePublicRequest_no_credential (Sample.env Sample.loginBody) Sample.ready
    { config := { Sample.ready.config with UserAPIKey := "other", UserID := 9 },
      cachedToken := "", configFile := none } "POST" "/api/auth/login" (some "u") rfl

/-- C15 at its failing input: the backend answers `{"success":false,"message":"X"}`, the
public relay returns that envelope, and the handlers of captcha status, captcha
generation, VIP levels and recharge settings reply with `success: true`. -/
theorem public_handlers_swallow_failure :
    (makePublicRequest (Sample.env Sample.failBody) Sample.ready "GET" "/api/captcha/status"
      none).result = .ok ⟨false, "X", none⟩ ∧
    (handleCaptchaStatus (Sample.env Sample.failBody) Sample.ready).reply =
      .json [("success", .bool true), ("data", .raw none)] ∧
    (handleCaptchaGenerate (Sample.env Sample.failBody) Sample.ready).reply =
      .json [("success", .bool true), ("data", .raw none)] ∧
    (handleVIPLevels (Sample.env Sample.failBody) Sample.ready).reply =
      .json [("success", .bool true), ("data", .raw none)] ∧
    (handleRechargeSettings (Sample.env Sample.failBody) Sample.ready).reply =
      .json [("success", .bool true), ("data", .raw none)] :=
  ⟨rfl, rfl, rfl, rfl, rfl⟩

/-- The handler of captcha verification replies with the success flag of the envelope the
public relay returned, as the handlers of login and registration do. -/
theorem handleCaptchaVerify_reply (env : Env) (s : State) (r : Inbound) (body : Body)
    (e : APIResponse) (hm : r.Method = "POST") (hb : env.decodeRequestBody r.Body = .ok body)
    (hr : (makePublicRequest env s "POST" "/api/captcha/verify" (some body)).result = .ok e) :
    (handleCaptchaVerify env s r).reply =
      .json [("success", .bool e.Success), ("message", .str e.Message),
        ("data", .raw e.Data)] := by
  unfold handleCaptchaVerify
  simp [hm, hb, hr]

/-! ## A login without a user id -/

/-- With the account identifier 0, `makeAPIRequest` stops at one of its three tests of the
settings, before any request is built. -/
theorem makeAPIRequest_userID_zero (env : Env) (s : State) (method endpoint : String)
    (h : s.config.UserID = 0) :
    (∃ msg, (makeAPIRequest env s method endpoint).result = .error msg ∧
      msg ∈ ["服务器地址未配置", "API密钥未配置", "用户ID未配置"]) ∧
    (makeAPIRequest env s method endpoint).calls = [] := by
  unfold makeAPIRequest
  by_cases h1 : s.config.ServerURL = ""
  · simp [h1]
  · by_cases h2 : s.config.UserAPIKey = ""
    · simp [h1, h2]
    · simp [h1, h2, h]

/-- C17: a login (`handleLogin`) or a registration (`handleRegister`) whose backend envelope
is `{success: true, data: d}`, with `d` unmarshalling to the non-empty token `t` and, for
want of a user id, to the user id 0, sets the account identifier of the settings to 0
whatever it was; afterwards every `makeAPIRequest`, whatever the backend, returns one of
its configuration errors and hands no request to `client.Do`. -/
theorem login_without_user_id (env : Env) (s : State) (r : Inbound) (t : String)
    (ht : t ≠ "") :
    (∀ body msg d resp, r.Method = "POST" → env.decodeRequestBody r.Body = .ok body →
      (makePublicRequest env s "POST" "/api/auth/login" (some body)).result =
        .ok ⟨true, msg, some d⟩ →
      env.unmarshalLoginResp d = .ok resp → resp.Token = t → resp.User.ID = 0 →
      (handleLogin env s r).state.config.UserID = 0 ∧
      ∀ (env2 : Env) (method endpoint : String),
        (∃ err, (makeAPIRequest env2 (handleLogin env s r).state method endpoint).result =
            .error err ∧
          err ∈ ["服务器地址未配置", "API密钥未配置", "用户ID未配置"]) ∧
        (makeAPIRequest env2 (handleLogin env s r).state method endpoint).calls = []) ∧
    (∀ body msg d resp, r.Method = "POST" → env.decodeRequestBody r.Body = .ok body →
      (makePublicRequest env s "POST" "/api/auth/register" (some body)).result =
        .ok ⟨true, msg, some d⟩ →
      env.unmarshalLoginResp d = .ok resp → resp.Token = t → resp.User.ID = 0 →
      (handleRegister env s r).state.config.UserID = 0 ∧
      ∀ (env2 : Env) (method endpoint : String),
        (∃ err, (makeAPIRequest env2 (handleRegister env s r).state method endpoint).result =
            .error err ∧
          err ∈ ["服务器地址未配置", "API密钥未配置", "用户ID未配置"]) ∧
        (makeAPIRequest env2 (handleRegister env s r).state method endpoint).calls = []) := by
  constructor
  · intro body msg d resp hm hb hr hu h1 h2
    have h0 : (handleLogin env s r).state.config.UserID = 0 := by
      unfold handleLogin
      simp [hm, hb, hr, hu, h1, h2, ht]
    exact ⟨h0, fun env2 method endpoint => makeAPIRequest_userID_zero env2 _ method endpoint h0⟩
  · intro body msg d resp hm hb hr hu h1 h2
    have h0 : (handleRegister env s r).state.config.UserID = 0 := by
      unfold handleRegister
      simp [hm, hb, hr, hu, h1, h2, ht]
    exact ⟨h0, fun env2 method endpoint => makeAPIRequest_userID_zero env2 _ method endpoint h0⟩

/-- Worked example for C17: the fake backend answers
`{"success":true,"data":{"token":"tok1"}}`; the login and the registration replace the
account identifier 7 by 0, and the next profile call fails without a request. -/
theorem login_without_user_id_witness :
    ((handleLogin (Sample.sparseEnv Sample.tokenOnlyBody) Sample.ready
        Sample.post).state.config.UserID = 0 ∧
      (makeAPIRequest (Sample.env Sample.tokenBody)
        (handleLogin (Sample.sparseEnv Sample.tokenOnlyBody) Sample.ready Sample.post).state
        "GET" "/api/user-api/profile").calls = []) ∧
    ((handleRegister (Sample.sparseEnv Sample.tokenOnlyBody) Sample.ready
        Sample.post).state.config.UserID = 0 ∧
      (makeAPIRequest (Sample.env Sample.tokenBody)
        (handleRegister (Sample.sparseEnv Sample.tokenOnlyBody) Sample.ready
          Sample.post).state
        "GET" "/api/user-api/profile").calls = []) :=
  have h := login_without_user_id (Sample.sparseEnv Sample.tokenOnlyBody) Sample.ready
    Sample.post "tok1" (by decide)
  have hl := h.1 Sample.post.Body "" Sample.tokenOnlyData ⟨"tok1", ⟨0, "", "", ""⟩⟩
    rfl rfl rfl rfl rfl rfl
  have hr := h.2 Sample.post.Body "" Sample.tokenOnlyData ⟨"tok1", ⟨0, "", "", ""⟩⟩
    rfl rfl rfl rfl rfl rfl
  ⟨⟨hl.1, (hl.2 (Sample.env Sample.tokenBody) "GET" "/api/user-api/profile").2⟩,
    ⟨hr.1, (hr.2 (Sample.env Sample.tokenBody) "GET" "/api/user-api/profile").2⟩⟩

end UserDemo
